import Mathlib

/-!
Verification of the Arkhe(n) typed entity/interaction runtime and its
application modules.

The repository imports a module named `runtime` providing `Node`, `Handover`,
`ANLType`, `ANLValue` and `PreservationProtocol`; that module is not among the
provided sources, so those five artifacts (and the `verify_conservation`
utility) are modelled from the specification text, while the application
modules (`distillation_demo.py`, `asimov_universe.py`, `ontological_engine.py`)
are embedded directly from their Python sources.

Python floats are modelled as rationals; every numeric literal occurring in
the claims (100.0, 500.0, 10.0, 0.001, 1.1, 0.9, 0.5, 0.3, 0.95, 1.5, 1e-9)
is exactly representable and the arithmetic the claims describe is exact.
-/

/-- Modelled from the spec: `ANLType` (the spec calls it `ValueKind`), the
closed tag set of value kinds, from spec section 3. The `runtime` module
defining it is missing from the sources. -/
inductive ANLType where
  | SCALAR
  | VECTOR
  | FUNCTION
  | NODE
  deriving DecidableEq, Repr

/-- Modelled from the spec: the error kinds of spec section 7. The `runtime`
module defining them is missing from the sources. -/
inductive ANLError where
  | TypeMismatch
  | ShapeMismatch
  | UnknownAttribute
  | MissingFidelity
  | FidelityOutOfRange
  | HandoverExecutionFailed
  | ConservationViolated
  deriving DecidableEq, Repr

/-- Runtime representations a value slot can hold in the observed usage:
numbers, strings, booleans, numeric vectors, opaque callables and node
references (the latter two kept opaque by tag). -/
inductive ANLData where
  | scalar (q : ℚ)
  | text (s : String)
  | flag (b : Bool)
  | vector (v : List ℚ)
  | func (tag : String)
  | nodeRef (tag : String)
  deriving DecidableEq, Repr

/-- Dimensionality of a datum: a one-dimensional vector of length `n` has
dimensionality `[n]`; non-vector data have empty dimensionality. -/
def ANLData.dims : ANLData → List Nat
  | .vector v => [v.length]
  | _ => []

/-- Modelled from the spec: validation of `data` against `(kind, shape)`
from spec section 4.1: a `Vector` whose data dimensionality disagrees with
`shape` is a `ShapeMismatch`; data whose runtime representation is
incompatible with `kind` is a `TypeMismatch`. The `runtime` module holding
this check is missing from the sources. -/
def validateData (kind : ANLType) (shape : List Nat) (data : ANLData) : Option ANLError :=
  match kind, data with
  | .VECTOR, .vector v => if [v.length] = shape then none else some .ShapeMismatch
  | .VECTOR, _ => some .TypeMismatch
  | .SCALAR, .vector _ => some .TypeMismatch
  | .SCALAR, .func _ => some .TypeMismatch
  | .SCALAR, _ => none
  | .FUNCTION, _ => none
  | .NODE, _ => none

/-- Modelled from the spec: `ANLValue` (the spec calls it `TypedValue`), a
value paired with its declared kind and shape, from spec section 3. -/
structure ANLValue where
  kind : ANLType
  shape : List Nat
  data : ANLData
  deriving DecidableEq, Repr

/-- Modelled from the spec: `TypedValue.construct` of spec section 4.1 —
validate `data` against `(kind, shape)` and fail rather than store an
inconsistent value. -/
def ANLValue.construct (kind : ANLType) (shape : List Nat) (data : ANLData) :
    Except ANLError ANLValue :=
  match validateData kind shape data with
  | none => .ok { kind := kind, shape := shape, data := data }
  | some e => .error e

/-- Modelled from the spec: `TypedValue.set` of spec section 4.1 —
re-validate against the stored `(kind, shape)`; a failed validation leaves
the previous data untouched (replace-or-reject). -/
def ANLValue.set (tv : ANLValue) (d : ANLData) : Except ANLError ANLValue :=
  match validateData tv.kind tv.shape d with
  | none => .ok { tv with data := d }
  | some e => .error e

/-- Decidable equality for fallible results, used to evaluate concrete
scenarios. -/
instance exceptDecidableEq {ε α : Type} [DecidableEq ε] [DecidableEq α] :
    DecidableEq (Except ε α) := fun x y =>
  match x, y with
  | .ok a, .ok b =>
      if h : a = b then .isTrue (by rw [h])
      else .isFalse (by intro hh; cases hh; exact h rfl)
  | .ok _, .error _ => .isFalse (by intro hh; cases hh)
  | .error _, .ok _ => .isFalse (by intro hh; cases hh)
  | .error e, .error f =>
      if h : e = f then .isTrue (by rw [h])
      else .isFalse (by intro hh; cases hh; exact h rfl)

/-- Association-list lookup over attribute maps. -/
def lookupAttr : List (String × ANLValue) → String → Option ANLValue
  | [], _ => none
  | (k, v) :: rest, name => if k = name then some v else lookupAttr rest name

/-- Association-list update over attribute maps; leaves the list unchanged
when the key is absent. -/
def updateAttr : List (String × ANLValue) → String → ANLValue → List (String × ANLValue)
  | [], _, _ => []
  | (k, v) :: rest, name, nv =>
      if k = name then (k, nv) :: rest else (k, v) :: updateAttr rest name nv

/-- Modelled from the spec: `Node` (Entity), spec section 3 — an identified
container of named typed values. The `runtime` module defining it is missing
from the sources. -/
structure Node where
  id : String
  state_space : ANLType
  attributes : List (String × ANLValue)
  deriving DecidableEq, Repr

/-- Modelled from the spec: `get_attribute` of spec section 4.2 — lookups of
an absent key are an `UnknownAttribute` error, not a default. -/
def Node.get_attribute (n : Node) (name : String) : Except ANLError ANLValue :=
  match lookupAttr n.attributes name with
  | some tv => .ok tv
  | none => .error .UnknownAttribute

/-- Modelled from the spec: `set_attribute` of spec section 4.2 — delegates
to the stored value, fails with `UnknownAttribute` on a name never declared;
attributes are not silently created by mutation. -/
def Node.set_attribute (n : Node) (name : String) (d : ANLData) : Except ANLError Node :=
  match lookupAttr n.attributes name with
  | none => .error .UnknownAttribute
  | some tv =>
      match tv.set d with
      | .error e => .error e
      | .ok tv2 => .ok { n with attributes := updateAttr n.attributes name tv2 }

/-- Modelled from the spec: `PreservationProtocol` (the spec calls it
`PreservationPolicy`), spec section 3. -/
inductive PreservationProtocol where
  | CONSERVATIVE
  | TRANSMUTATIVE
  deriving DecidableEq, Repr

/-- Modelled from the spec: `Handover`, spec section 3 — a directed
interaction between two entities under one preservation protocol, with a
caller-supplied pure mapping function and, for transmutative handovers, a
fidelity score. -/
structure Handover (α : Type) where
  id : String
  source : Node
  target : Node
  protocol : PreservationProtocol
  map_state : Node → α
  fidelity : Option ℚ

/-- Modelled from the spec: handover construction, spec section 4.3 — a
transmutative handover requires a fidelity in the unit interval, failing with
`MissingFidelity` or `FidelityOutOfRange`; a conservative handover carries no
fidelity. -/
def Handover.construct {α : Type} (id : String) (source target : Node)
    (protocol : PreservationProtocol) (map_state : Node → α)
    (fidelity : Option ℚ) : Except ANLError (Handover α) :=
  match protocol, fidelity with
  | .TRANSMUTATIVE, none => .error .MissingFidelity
  | .TRANSMUTATIVE, some f =>
      if 0 ≤ f ∧ f ≤ 1 then
        .ok { id := id, source := source, target := target,
              protocol := .TRANSMUTATIVE, map_state := map_state, fidelity := some f }
      else .error .FidelityOutOfRange
  | .CONSERVATIVE, _ =>
      .ok { id := id, source := source, target := target,
            protocol := .CONSERVATIVE, map_state := map_state, fidelity := none }

/-- Fidelity metadata exposed by execution: present exactly for transmutative
handovers (spec section 4.3). -/
def Handover.fidelityMeta {α : Type} (h : Handover α) : Option ℚ :=
  match h.protocol with
  | .TRANSMUTATIVE => h.fidelity
  | .CONSERVATIVE => none

/-- Modelled from the spec: `execute` of spec section 4.3 — invoke
`map_state` on the source to obtain the transferred value, returned together
with the fidelity metadata. -/
def Handover.execute {α : Type} (h : Handover α) : α × Option ℚ :=
  (h.map_state h.source, h.fidelityMeta)

/-- Modelled from the spec: execution viewed as a step on the current states
of the source and target entities (which in the runtime are mutable and
shared). It computes the value from the source snapshot and returns both
entity states; spec section 4.3 states execution performs no mutation at
all, so the returned states are the input states. -/
def Handover.executeOn {α : Type} (h : Handover α) (s t : Node) :
    (α × Option ℚ) × Node × Node :=
  ((h.map_state s, h.fidelityMeta), s, t)

/-- Absolute value on rationals, written out so concrete instances evaluate
by definitional unfolding. -/
def ratAbs (q : ℚ) : ℚ := if q < 0 then -q else q

/-- Modelled from the spec: `verify_conservation` of spec section 4.4 —
fails with `ConservationViolated` when the before/after sums differ by more
than the tolerance. The `runtime` module holding it is missing from the
sources. -/
def verify_conservation (before_source_qty before_target_qty
    after_source_qty after_target_qty tolerance : ℚ) : Except ANLError Unit :=
  if ratAbs ((before_source_qty + before_target_qty)
      - (after_source_qty + after_target_qty)) > tolerance
  then .error .ConservationViolated
  else .ok ()

/-! Embedding of `distillation_demo.py` (source in the repository). -/

/-- The `Rabbit_01` node of `run_distillation_demo`, lines 14-21 of
`distillation_demo.py`. -/
def rabbitNode : Node :=
  { id := "Rabbit_01", state_space := .SCALAR,
    attributes := [("energy", ⟨.SCALAR, [], .scalar 100⟩),
                   ("age", ⟨.SCALAR, [], .scalar 0⟩)] }

/-- The `Grass_Patch` node of `run_distillation_demo`, lines 32-38. -/
def grassNode : Node :=
  { id := "Grass_Patch", state_space := .SCALAR,
    attributes := [("biomass", ⟨.SCALAR, [], .scalar 500⟩)] }

/-- The mapping function `eat_grass_fn` of lines 41-43: constant energy
gain of 10. -/
def eat_grass_fn : Node → ℚ := fun _ => 10

/-- The `EatGrass` handover of lines 45-51: conservative, from rabbit to
grass. -/
def eat_grass : Handover ℚ :=
  { id := "EatGrass", source := rabbitNode, target := grassNode,
    protocol := .CONSERVATIVE, map_state := eat_grass_fn, fidelity := none }

/-- Read a scalar attribute datum from a node. -/
def getScalarData (n : Node) (name : String) : Except ANLError ℚ :=
  match n.get_attribute name with
  | .error e => .error e
  | .ok tv =>
      match tv.data with
      | .scalar q => .ok q
      | _ => .error .TypeMismatch

/-- The caller-side effect of lines 59-60 of `distillation_demo.py`: add the
transferred value to the source attribute and subtract it from the target
attribute. -/
def applyTransfer (src tgt : Node) (srcAttr tgtAttr : String) (v : ℚ) :
    Except ANLError (Node × Node) :=
  match getScalarData src srcAttr, getScalarData tgt tgtAttr with
  | .ok a, .ok b =>
      match src.set_attribute srcAttr (.scalar (a + v)),
            tgt.set_attribute tgtAttr (.scalar (b - v)) with
      | .ok s2, .ok t2 => .ok (s2, t2)
      | .error e, _ => .error e
      | _, .error e => .error e
  | .error e, _ => .error e
  | _, .error e => .error e

/-- Lines 57-60 of `run_distillation_demo`: execute the handover, and if the
returned value is non-zero (Python truthiness of the float) apply it to
`energy` and `biomass`. Returns the transferred value and the two updated
nodes. -/
def demoStep : Except ANLError (ℚ × Node × Node) :=
  match eat_grass.executeOn rabbitNode grassNode with
  | (res, s1, t1) =>
      if res.1 ≠ 0 then
        match applyTransfer s1 t1 "energy" "biomass" res.1 with
        | .ok (s2, t2) => .ok (res.1, s2, t2)
        | .error e => .error e
      else .ok (res.1, s1, t1)

/-! Embedding of `asimov_universe.py` (source in the repository). -/

/-- Attribute state of a `RobotModel` node, fields from `RobotModel.__init__`
(lines 10-21 of `asimov_universe.py`). -/
structure RobotAttrs where
  model : String
  series : String
  brain_potential : ℚ
  zeroth_law_aware : Bool
  mentalic_power : ℚ
  deriving DecidableEq, Repr

/-- `RobotModel.evolve` (lines 23-29): increment the brain potential by
`0.001 * dt`, clamp the stored value at 1.0, and set zeroth-law awareness
when the unclamped potential exceeds 0.9 and experience exceeds 1000. -/
def RobotAttrs.evolve (r : RobotAttrs) (dt experience : ℚ) : RobotAttrs :=
  let pot := r.brain_potential + (1 / 1000) * dt
  { r with
    brain_potential := min 1 pot,
    zeroth_law_aware :=
      if pot > 9 / 10 ∧ experience > 1000 then true else r.zeroth_law_aware }

/-- Attribute state of the `Foundation` node, fields from
`FoundationModel.__init__` (lines 46-57). -/
structure FoundationAttrs where
  founding_year : ℚ
  phase : String
  scientific_superiority : ℚ
  subject_worlds : ℚ
  current_crisis : ℚ
  deriving DecidableEq, Repr

/-- `seldon_crisis` (lines 95-102): when the current time is within 1.0 of
the crisis time, increment the crisis count, multiply scientific superiority
by 1.1, add 2 subject worlds and return True; otherwise return False and
change nothing. The psychohistory node argument is unused by the body. -/
def seldon_crisis {ψ : Type} (foundation_node : FoundationAttrs)
    (psychohistory_node : ψ) (current_time crisis_time : ℚ) :
    Bool × FoundationAttrs :=
  if ratAbs (current_time - crisis_time) < 1 then
    (true,
      { foundation_node with
        current_crisis := foundation_node.current_crisis + 1,
        scientific_superiority := foundation_node.scientific_superiority * (11 / 10),
        subject_worlds := foundation_node.subject_worlds + 2 })
  else (false, foundation_node)

/-- `inheritance_daneel` (lines 83-93): influence 0.9 before year 3624, 0.5
before year 12000, 0.3 afterwards; both node arguments are unused by the
body. -/
def inheritance_daneel {α β : Type} (daneel_node : α) (target_node : β)
    (current_time : ℚ) : ℚ :=
  if current_time < 3624 then 9 / 10
  else if current_time < 12000 then 1 / 2
  else 3 / 10

/-- State of the rabbit node after the demo step: energy raised to 110. -/
def rabbitAfter : Node :=
  { id := "Rabbit_01", state_space := .SCALAR,
    attributes := [("energy", ⟨.SCALAR, [], .scalar 110⟩),
                   ("age", ⟨.SCALAR, [], .scalar 0⟩)] }

/-- State of the grass node after the demo step: biomass lowered to 490. -/
def grassAfter : Node :=
  { id := "Grass_Patch", state_space := .SCALAR,
    attributes := [("biomass", ⟨.SCALAR, [], .scalar 490⟩)] }

/-- A concrete transmutative handover in the shape of
`OntologicalCommunication` from `ontological_engine.py` (fidelity 0.95). -/
def commHandover : Handover ℚ :=
  { id := "Comm", source := rabbitNode, target := grassNode,
    protocol := .TRANSMUTATIVE, map_state := fun _ => 1,
    fidelity := some (19 / 20) }

/-- A robot state whose brain potential exceeds 1, constructible through
`RobotModel.__init__` by passing `brain_potential = 2.0`. -/
def highPotentialRobot : RobotAttrs :=
  { model := "Humaniform", series := "R-X", brain_potential := 2,
    zeroth_law_aware := false, mentalic_power := 0 }

/-- The robot state produced by `RobotModel.__init__` with the default
brain potential of 0.5. -/
def defaultRobot : RobotAttrs :=
  { model := "Humaniform", series := "R. Daneel Olivaw",
    brain_potential := 1 / 2, zeroth_law_aware := false, mentalic_power := 0 }

/-- The foundation state produced by `FoundationModel.__init__`. -/
def foundationInit : FoundationAttrs :=
  { founding_year := 23651, phase := "Encyclopedia",
    scientific_superiority := 8 / 10, subject_worlds := 1,
    current_crisis := 0 }

/-! Helper lemmas. -/

theorem ratAbs_eq_abs (q : ℚ) : ratAbs q = |q| := by
  unfold ratAbs
  split
  · exact (abs_of_neg (by assumption)).symm
  · exact (abs_of_nonneg (le_of_not_lt (by assumption))).symm

theorem lookupAttr_updateAttr (l : List (String × ANLValue)) (name : String)
    (nv tv : ANLValue) (hl : lookupAttr l name = some tv) :
    lookupAttr (updateAttr l name nv) name = some nv := by
  induction l with
  | nil => simp [lookupAttr] at hl
  | cons kv rest ih =>
      obtain ⟨k, v⟩ := kv
      by_cases hk : k = name
      · simp [lookupAttr, updateAttr, if_pos hk]
      · rw [lookupAttr, if_neg hk] at hl
        rw [updateAttr, if_neg hk, lookupAttr, if_neg hk]
        exact ih hl

theorem ANLValue.set_data {tv tv2 : ANLValue} {d : ANLData}
    (h : tv.set d = .ok tv2) : tv2.data = d := by
  unfold ANLValue.set at h
  cases hv : validateData tv.kind tv.shape d with
  | none =>
      rw [hv] at h
      simp only [Except.ok.injEq] at h
      rw [← h]
  | some e => rw [hv] at h; simp at h

/-! Claim theorems. -/

/-- C1: in the conservative-transfer scenario, the `EatGrass` handover with a
constant mapping of 10 yields v = 10; the caller-side update gives the rabbit
energy 110 and the grass biomass 490; the energy plus biomass total is 600
before and after; and `verify_conservation` passes at tolerance 1e-9. -/
theorem c1_conservative_transfer :
    eat_grass.execute = (10, none)
    ∧ demoStep = .ok (10, rabbitAfter, grassAfter)
    ∧ getScalarData rabbitAfter "energy" = .ok 110
    ∧ getScalarData grassAfter "biomass" = .ok 490
    ∧ verify_conservation 100 500 110 490 (1 / 1000000000) = .ok ()
    ∧ (100 : ℚ) + 500 = 600 ∧ (110 : ℚ) + 490 = 600 := by
  refine ⟨rfl, ?_, rfl, rfl, ?_, by norm_num, by norm_num⟩
  · norm_num [demoStep, applyTransfer, getScalarData, Node.get_attribute,
      Node.set_attribute, ANLValue.set, validateData, lookupAttr, updateAttr,
      Handover.executeOn, Handover.fidelityMeta, eat_grass, eat_grass_fn,
      rabbitNode, grassNode, rabbitAfter, grassAfter]
  · norm_num [verify_conservation, ratAbs]

/-- C2: execution mutates neither the source nor the target state; the
computed value is exactly `map_state` applied to the source snapshot, and a
transmutative handover additionally returns its fidelity as metadata. -/
theorem c2_execute_no_mutation {α : Type} (h : Handover α) (s t : Node) :
    (h.executeOn s t).2.1 = s
    ∧ (h.executeOn s t).2.2 = t
    ∧ (h.executeOn s t).1.1 = h.map_state s
    ∧ (h.protocol = .TRANSMUTATIVE → (h.executeOn s t).1.2 = h.fidelity) := by
  refine ⟨rfl, rfl, rfl, ?_⟩
  intro hp
  simp [Handover.executeOn, Handover.fidelityMeta, hp]

theorem c2_execute_no_mutation_witness :
    commHandover.protocol = .TRANSMUTATIVE
    ∧ (commHandover.executeOn rabbitNode grassNode).2.1 = rabbitNode
    ∧ (commHandover.executeOn rabbitNode grassNode).1.2 = some (19 / 20) :=
  ⟨rfl, (c2_execute_no_mutation commHandover rabbitNode grassNode).1,
    (c2_execute_no_mutation commHandover rabbitNode grassNode).2.2.2 rfl⟩

/-- C3: `map_state` is a pure Lean function of the source snapshot, so the
computed value does not depend on the target state, and executing the same
handover a second time on the states returned by the first execution yields
the same computed value. -/
theorem c3_execute_repeatable {α : Type} (h : Handover α) (s t t2 : Node) :
    (h.executeOn s t).1.1
        = (h.executeOn (h.executeOn s t).2.1 (h.executeOn s t).2.2).1.1
    ∧ (h.executeOn s t).1.1 = (h.executeOn s t2).1.1
    ∧ (h.executeOn s t).1.1 = h.map_state s :=
  ⟨rfl, rfl, rfl⟩

theorem c3_execute_repeatable_witness :
    (eat_grass.executeOn rabbitNode grassNode).1.1
      = (eat_grass.executeOn (eat_grass.executeOn rabbitNode grassNode).2.1
          (eat_grass.executeOn rabbitNode grassNode).2.2).1.1 :=
  (c3_execute_repeatable eat_grass rabbitNode grassNode grassNode).1

/-- C4: constructing a Vector-kind typed value succeeds exactly when the data
dimensionality equals the declared shape, and fails with `ShapeMismatch`
whenever it differs. -/
theorem c4_vector_shape_check (shape : List Nat) (v : List ℚ) :
    (ANLValue.construct .VECTOR shape (.vector v)
        = .ok ⟨.VECTOR, shape, .vector v⟩ ↔ (ANLData.vector v).dims = shape)
    ∧ ((ANLData.vector v).dims ≠ shape →
        ANLValue.construct .VECTOR shape (.vector v) = .error .ShapeMismatch) := by
  by_cases hs : [v.length] = shape
  · constructor
    · simp [ANLValue.construct, validateData, ANLData.dims, hs]
    · intro hd
      exact absurd hs hd
  · constructor
    · simp [ANLValue.construct, validateData, ANLData.dims, hs]
    · intro _
      simp [ANLValue.construct, validateData, hs]

theorem c4_vector_shape_check_witness :
    (ANLData.vector [1, 2]).dims ≠ [3]
    ∧ ANLValue.construct .VECTOR [3] (.vector [1, 2]) = .error .ShapeMismatch
    ∧ ANLValue.construct .VECTOR [3] (.vector [1, 2, 3])
        = .ok ⟨.VECTOR, [3], .vector [1, 2, 3]⟩ :=
  ⟨by decide, (c4_vector_shape_check [3] [1, 2]).2 (by decide),
    (c4_vector_shape_check [3] [1, 2, 3]).1.mpr (by decide)⟩

/-- C5: a transmutative handover requires a fidelity in the unit interval:
omitted fidelity fails with `MissingFidelity`, fidelity 1.5 fails with
`FidelityOutOfRange`, construction with some fidelity succeeds exactly when it
lies in the unit interval, and fidelity 0.95 succeeds with execution exposing
fidelity 0.95 as metadata. -/
theorem c5_transmutative_fidelity {α : Type} (hid : String) (s t : Node)
    (m : Node → α) :
    Handover.construct hid s t .TRANSMUTATIVE m none = .error .MissingFidelity
    ∧ Handover.construct hid s t .TRANSMUTATIVE m (some (3 / 2))
        = .error .FidelityOutOfRange
    ∧ (∀ f : ℚ,
        (∃ h, Handover.construct hid s t .TRANSMUTATIVE m (some f) = .ok h)
          ↔ 0 ≤ f ∧ f ≤ 1)
    ∧ (∃ h, Handover.construct hid s t .TRANSMUTATIVE m (some (19 / 20)) = .ok h
        ∧ h.execute.2 = some (19 / 20)) := by
  refine ⟨rfl, ?_, ?_, ?_⟩
  · have hc : ¬((0:ℚ) ≤ 3 / 2 ∧ (3:ℚ) / 2 ≤ 1) := by norm_num
    simp [Handover.construct, hc]
  · intro f
    constructor
    · rintro ⟨h, hh⟩
      by_cases hc : 0 ≤ f ∧ f ≤ 1
      · exact hc
      · simp [Handover.construct, hc] at hh
    · intro hc
      exact ⟨{ id := hid, source := s, target := t,
               protocol := .TRANSMUTATIVE, map_state := m,
               fidelity := some f }, by simp [Handover.construct, hc]⟩
  · have hc : (0:ℚ) ≤ 19 / 20 ∧ (19:ℚ) / 20 ≤ 1 := by norm_num
    refine ⟨{ id := hid, source := s, target := t, protocol := .TRANSMUTATIVE,
              map_state := m, fidelity := some (19 / 20) }, ?_, rfl⟩
    simp [Handover.construct, hc]

theorem c5_transmutative_fidelity_witness :
    Handover.construct "Comm" rabbitNode grassNode .TRANSMUTATIVE
        (fun _ => (1 : ℚ)) none = .error .MissingFidelity
    ∧ Handover.construct "Comm" rabbitNode grassNode .TRANSMUTATIVE
        (fun _ => (1 : ℚ)) (some (3 / 2)) = .error .FidelityOutOfRange :=
  ⟨(c5_transmutative_fidelity "Comm" rabbitNode grassNode (fun _ => (1 : ℚ))).1,
    (c5_transmutative_fidelity "Comm" rabbitNode grassNode (fun _ => (1 : ℚ))).2.1⟩

/-- C6: on every entity, reading an attribute after successfully writing it
returns the written datum, and both reading and writing a name never declared
at construction fail with `UnknownAttribute`. -/
theorem c6_attribute_get_set (n : Node) (name : String) (d : ANLData) :
    (∀ n2, n.set_attribute name d = .ok n2 →
        ∃ tv, n2.get_attribute name = .ok tv ∧ tv.data = d)
    ∧ (lookupAttr n.attributes name = none →
        n.get_attribute name = .error .UnknownAttribute
        ∧ n.set_attribute name d = .error .UnknownAttribute) := by
  constructor
  · intro n2 hset
    unfold Node.set_attribute at hset
    split at hset
    · simp at hset
    · rename_i tv hl
      split at hset
      · simp at hset
      · rename_i tv2 hs
        simp only [Except.ok.injEq] at hset
        subst hset
        refine ⟨tv2, ?_, ANLValue.set_data hs⟩
        unfold Node.get_attribute
        rw [lookupAttr_updateAttr n.attributes name tv2 tv hl]
  · intro hl
    constructor
    · unfold Node.get_attribute
      rw [hl]
    · unfold Node.set_attribute
      rw [hl]

theorem c6_attribute_get_set_witness :
    (∃ tv, Node.get_attribute
        { id := "Rabbit_01", state_space := .SCALAR,
          attributes := [("energy", ⟨.SCALAR, [], .scalar 110⟩),
                         ("age", ⟨.SCALAR, [], .scalar 0⟩)] } "energy"
        = .ok tv ∧ tv.data = .scalar 110)
    ∧ rabbitNode.get_attribute "hunger" = .error .UnknownAttribute
    ∧ rabbitNode.set_attribute "hunger" (.scalar 1)
        = .error .UnknownAttribute :=
  ⟨(c6_attribute_get_set rabbitNode "energy" (.scalar 110)).1 _ (by decide),
    ((c6_attribute_get_set rabbitNode "hunger" (.scalar 1)).2 (by decide)).1,
    ((c6_attribute_get_set rabbitNode "hunger" (.scalar 1)).2 (by decide)).2⟩

/-- C7: `verify_conservation` fails with `ConservationViolated` exactly when
the before/after sums differ by more than the tolerance and passes otherwise;
in particular adding 10 to the source without subtracting from the target is
rejected at tolerance 1e-9. -/
theorem c7_verify_conservation (bs bt aS aT tol : ℚ) :
    (verify_conservation bs bt aS aT tol = .error .ConservationViolated
        ↔ |(bs + bt) - (aS + aT)| > tol)
    ∧ (verify_conservation bs bt aS aT tol = .ok ()
        ↔ ¬ |(bs + bt) - (aS + aT)| > tol)
    ∧ verify_conservation 100 500 110 500 (1 / 1000000000)
        = .error .ConservationViolated := by
  refine ⟨?_, ?_, by norm_num [verify_conservation, ratAbs]⟩
  all_goals
    by_cases hc : |(bs + bt) - (aS + aT)| > tol
  all_goals
    simp [verify_conservation, ratAbs_eq_abs, hc]

theorem c7_verify_conservation_witness :
    verify_conservation 100 500 110 490 (1 / 1000000000) = .ok () :=
  (c7_verify_conservation 100 500 110 490 (1 / 1000000000)).2.1.mpr
    (by norm_num)

/-- C8 counterexample: the claim that for dt ≥ 0 the brain potential never
decreases fails on a robot constructed with brain potential 2.0 — with
dt = 0 the evolve step clamps the stored value to 1, a strict decrease. -/
theorem c8_brain_potential_counterexample :
    (0 : ℚ) ≤ 0
    ∧ (highPotentialRobot.evolve 0 0).brain_potential
        = min 1 (highPotentialRobot.brain_potential + (1 / 1000) * 0)
    ∧ ¬ highPotentialRobot.brain_potential
        ≤ (highPotentialRobot.evolve 0 0).brain_potential := by
  refine ⟨le_refl 0, rfl, ?_⟩
  have hv : (highPotentialRobot.evolve 0 0).brain_potential = 1 := by
    norm_num [RobotAttrs.evolve, highPotentialRobot, min_def]
  rw [hv]
  norm_num [highPotentialRobot]

/-- C8 (amended): after `evolve(dt, experience)` the brain potential equals
min(1, old + 0.001·dt), hence never exceeds 1; and when dt ≥ 0 and the prior
brain potential is at most 1 it never decreases. -/
theorem c8_brain_potential_evolve (r : RobotAttrs) (dt e : ℚ) :
    (r.evolve dt e).brain_potential = min 1 (r.brain_potential + (1 / 1000) * dt)
    ∧ (r.evolve dt e).brain_potential ≤ 1
    ∧ (0 ≤ dt → r.brain_potential ≤ 1 →
        r.brain_potential ≤ (r.evolve dt e).brain_potential) := by
  refine ⟨rfl, min_le_left _ _, ?_⟩
  intro hdt hbp
  show r.brain_potential ≤ min 1 (r.brain_potential + (1 / 1000) * dt)
  refine le_min hbp ?_
  have hnn : 0 ≤ (1 / 1000 : ℚ) * dt := by positivity
  linarith

theorem c8_brain_potential_evolve_witness :
    (0 : ℚ) ≤ 1
    ∧ defaultRobot.brain_potential ≤ 1
    ∧ defaultRobot.brain_potential ≤ (defaultRobot.evolve 1 0).brain_potential :=
  ⟨by norm_num, by norm_num [defaultRobot],
    (c8_brain_potential_evolve defaultRobot 1 0).2.2 (by norm_num)
      (by norm_num [defaultRobot])⟩

/-- C9: `seldon_crisis` returns True exactly when the current time is within
1.0 of the crisis time; on False the foundation state is unchanged, and on
True the crisis count is incremented by 1, scientific superiority is
multiplied by 1.1, the subject worlds grow by 2 and the remaining attributes
are unchanged. -/
theorem c9_seldon_crisis {ψ : Type} (f : FoundationAttrs) (p : ψ)
    (ct crt : ℚ) :
    ((seldon_crisis f p ct crt).1 = true ↔ |ct - crt| < 1)
    ∧ ((seldon_crisis f p ct crt).1 = false → (seldon_crisis f p ct crt).2 = f)
    ∧ ((seldon_crisis f p ct crt).1 = true →
        (seldon_crisis f p ct crt).2.current_crisis = f.current_crisis + 1
        ∧ (seldon_crisis f p ct crt).2.scientific_superiority
            = f.scientific_superiority * (11 / 10)
        ∧ (seldon_crisis f p ct crt).2.subject_worlds = f.subject_worlds + 2
        ∧ (seldon_crisis f p ct crt).2.founding_year = f.founding_year
        ∧ (seldon_crisis f p ct crt).2.phase = f.phase) := by
  by_cases hc : |ct - crt| < 1
  · have hr : ratAbs (ct - crt) < 1 := by rw [ratAbs_eq_abs]; exact hc
    simp [seldon_crisis, hr, hc]
  · have hr : ¬ ratAbs (ct - crt) < 1 := by rw [ratAbs_eq_abs]; exact hc
    simp [seldon_crisis, hr, hc]

theorem c9_seldon_crisis_witness :
    (seldon_crisis foundationInit (0 : Nat) 23701 23701).1 = true
    ∧ (seldon_crisis foundationInit (0 : Nat) 23701 23701).2.current_crisis
        = foundationInit.current_crisis + 1
    ∧ (seldon_crisis foundationInit (0 : Nat) 23701 23701).2.scientific_superiority
        = foundationInit.scientific_superiority * (11 / 10)
    ∧ (seldon_crisis foundationInit (0 : Nat) 23701 23701).2.subject_worlds
        = foundationInit.subject_worlds + 2
    ∧ (seldon_crisis foundationInit (0 : Nat) 23701 23701).2.phase
        = foundationInit.phase :=
  have h := c9_seldon_crisis foundationInit (0 : Nat) 23701 23701
  have ht : (seldon_crisis foundationInit (0 : Nat) 23701 23701).1 = true :=
    h.1.mpr (by norm_num)
  ⟨ht, (h.2.2 ht).1, (h.2.2 ht).2.1, (h.2.2 ht).2.2.1, (h.2.2 ht).2.2.2.2⟩

/-- C10: `inheritance_daneel` ignores both node arguments — any two pairs of
nodes give the same influence at the same time — and the influence is 0.9
before year 3624, 0.5 from 3624 up to 12000, and 0.3 from 12000 on. -/
theorem c10_inheritance_daneel {α β γ δ : Type} (d1 : α) (t1 : β) (d2 : γ)
    (t2 : δ) (ct : ℚ) :
    inheritance_daneel d1 t1 ct = inheritance_daneel d2 t2 ct
    ∧ (ct < 3624 → inheritance_daneel d1 t1 ct = 9 / 10)
    ∧ (3624 ≤ ct → ct < 12000 → inheritance_daneel d1 t1 ct = 1 / 2)
    ∧ (12000 ≤ ct → inheritance_daneel d1 t1 ct = 3 / 10) := by
  refine ⟨rfl, ?_, ?_, ?_⟩
  · intro h1
    simp [inheritance_daneel, h1]
  · intro h1 h2
    simp [inheritance_daneel, not_lt.mpr h1, h2]
  · intro h1
    have ha : ¬ ct < 3624 := not_lt.mpr (by linarith)
    have hb : ¬ ct < 12000 := not_lt.mpr h1
    simp [inheritance_daneel, ha, hb]

theorem c10_inheritance_daneel_witness :
    inheritance_daneel "Robot_R. Daneel Olivaw" (0 : Nat) (3424 : ℚ) = 9 / 10
    ∧ inheritance_daneel (0 : Nat) "Planet_Terminus" (23651 : ℚ) = 3 / 10 :=
  ⟨(c10_inheritance_daneel "Robot_R. Daneel Olivaw" (0 : Nat) (1 : Nat)
      (2 : Nat) 3424).2.1 (by norm_num),
    (c10_inheritance_daneel (0 : Nat) "Planet_Terminus" (1 : Nat)
      (2 : Nat) 23651).2.2.2 (by norm_num)⟩
